import Mathlib

/-!
Shallow embedding of the x402 payment-protocol demo (Arbitrum variant):
network-identifier normalization, the facilitator HTTP handlers, the
quote-service payment verifier, the EIP-3009 settlement service, and the
AP2 batch-invoice settlement flow.  TypeScript strings are modelled as
Lean `String`; `String.prototype.toLowerCase()` is modelled on its ASCII
fragment (`lowerChar`/`lowerString`); `BigInt(string)` on signed decimal
strings (`parseBigInt?`); RPC round-trips (gas estimation, contract
reads/writes, receipts) are oracle inputs threaded through explicit
environment records.
-/

/-- ASCII fragment of `toLowerCase` on a single character. -/
def lowerChar (c : Char) : Char :=
  if 65 ≤ c.toNat ∧ c.toNat ≤ 90 then Char.ofNat (c.toNat + 32) else c

/-- ASCII fragment of `String.prototype.toLowerCase()`. -/
def lowerString (s : String) : String := ⟨s.data.map lowerChar⟩

lemma lowerChar_idem (c : Char) : lowerChar (lowerChar c) = lowerChar c := by
  unfold lowerChar
  by_cases h : 65 ≤ c.toNat ∧ c.toNat ≤ 90
  · rw [if_pos h]
    obtain ⟨h1, h2⟩ := h
    generalize c.toNat = n at h1 h2
    interval_cases n <;> decide
  · rw [if_neg h, if_neg h]

lemma lowerString_idem (s : String) : lowerString (lowerString s) = lowerString s := by
  unfold lowerString
  simp [List.map_map, Function.comp_def, lowerChar_idem]

/-- Decimal digit predicate (`0`-`9`). -/
def isDigitChar (c : Char) : Bool := 48 ≤ c.toNat && c.toNat ≤ 57

/-- Value of a list of decimal digits, most significant first. -/
def natOfDigits (l : List Char) : Nat :=
  l.foldl (fun acc c => 10 * acc + (c.toNat - 48)) 0

/-- `BigInt(string)` on (possibly sign-prefixed) decimal strings:
`BigInt('')` is `0n`; a malformed string makes `BigInt` throw, modelled
as `none`. -/
def parseBigInt? (s : String) : Option Int :=
  match s.data with
  | [] => some 0
  | '-' :: rest =>
      if rest ≠ [] ∧ rest.all isDigitChar then some (-(natOfDigits rest : Int)) else none
  | l => if l.all isDigitChar then some (natOfDigits l : Int) else none

/-- Hexadecimal digit predicate. -/
def isHexChar (c : Char) : Bool :=
  isDigitChar c || (97 ≤ c.toNat && c.toNat ≤ 102) || (65 ≤ c.toNat && c.toNat ≤ 70)

/-- `sub` occurs contiguously inside `s` (substring containment on the
character lists of the two strings). -/
def containsSubstr (s sub : String) : Bool :=
  (List.range (s.data.length + 1)).any (fun i => sub.data.isPrefixOf (s.data.drop i))

namespace AppX402Utils

/-!
`x402-service/app/x402-utils.ts` (the enum-based variant): a static alias
table `ALIAS_TO_CAIP` keyed by the two CAIP-2 ids and the two legacy
names.
-/

/-- `ALIAS_TO_CAIP[key]` as a lookup function. -/
def aliasToCaip (s : String) : Option String :=
  if s = "eip155:42161" then some "eip155:42161"
  else if s = "eip155:421614" then some "eip155:421614"
  else if s = "arbitrum" then some "eip155:42161"
  else if s = "arbitrum-sepolia" then some "eip155:421614"
  else none

/-- `normalizeNetworkId(networkId?: string)`: falsy input gives `''`,
otherwise `ALIAS_TO_CAIP[id] || ALIAS_TO_CAIP[id.toLowerCase()] || id`
(the `||` chain takes the first defined lookup, else the input). -/
def normalizeNetworkId (networkId : Option String) : String :=
  match networkId with
  | none => ""
  | some s =>
      if s = "" then ""
      else
        match aliasToCaip s with
        | some v => v
        | none =>
            match aliasToCaip (lowerString s) with
            | some v => v
            | none => s

/-- `CAIP_TO_LEGACY` composed after normalization:
`toLegacyNetworkId(networkId)`. -/
def toLegacyNetworkId (networkId : String) : String :=
  let normalized := normalizeNetworkId (some networkId)
  if normalized = "eip155:42161" then "arbitrum"
  else if normalized = "eip155:421614" then "arbitrum-sepolia"
  else networkId

lemma aliasToCaip_canonical {s v : String} (h : aliasToCaip s = some v) :
    v = "eip155:42161" ∨ v = "eip155:421614" := by
  unfold aliasToCaip at h
  split_ifs at h <;> simp_all

lemma appNormalize_some (s : String) :
    normalizeNetworkId (some s) =
      if s = "" then ""
      else
        match aliasToCaip s with
        | some v => v
        | none =>
            match aliasToCaip (lowerString s) with
            | some v => v
            | none => s := rfl

lemma appNormalize_idem (s? : Option String) :
    normalizeNetworkId (some (normalizeNetworkId s?)) = normalizeNetworkId s? := by
  match s? with
  | none => decide
  | some s =>
    by_cases hs : s = ""
    · subst hs; decide
    · rw [appNormalize_some s, if_neg hs]
      cases h1 : aliasToCaip s with
      | some v =>
        rcases aliasToCaip_canonical h1 with hv | hv <;> subst hv
        · exact (by decide : normalizeNetworkId (some "eip155:42161") = "eip155:42161")
        · exact (by decide : normalizeNetworkId (some "eip155:421614") = "eip155:421614")
      | none =>
        cases h2 : aliasToCaip (lowerString s) with
        | some v =>
          rcases aliasToCaip_canonical h2 with hv | hv <;> subst hv
          · exact (by decide : normalizeNetworkId (some "eip155:42161") = "eip155:42161")
          · exact (by decide : normalizeNetworkId (some "eip155:421614") = "eip155:421614")
        | none =>
          show normalizeNetworkId (some s) = s
          rw [appNormalize_some s, if_neg hs, h1, h2]

end AppX402Utils

namespace Ap2X402Utils

/-!
`ap2-service/src/x402-utils.ts` (the table-plus-lowercasing variant):
`NETWORK_ALIASES` keyed by lowercase strings; the result is always
lowercased.
-/

/-- `NETWORK_ALIASES[key]` as a lookup function. -/
def networkAliases (s : String) : Option String :=
  if s = "arbitrum" then some "eip155:42161"
  else if s = "arbitrum-sepolia" then some "eip155:421614"
  else if s = "eip155:42161" then some "eip155:42161"
  else if s = "eip155:421614" then some "eip155:421614"
  else none

/-- `normalizeNetworkId(networkId?: string)`: falsy input gives `''`,
otherwise `(NETWORK_ALIASES[id.toLowerCase()] || id).toLowerCase()`. -/
def normalizeNetworkId (networkId : Option String) : String :=
  match networkId with
  | none => ""
  | some s =>
      if s = "" then ""
      else
        lowerString
          (match networkAliases (lowerString s) with
           | some v => v
           | none => s)

/-- `toLegacyNetworkId` of this variant (if-chain after normalization). -/
def toLegacyNetworkId (networkId : String) : String :=
  let normalized := normalizeNetworkId (some networkId)
  if normalized = "eip155:42161" then "arbitrum"
  else if normalized = "eip155:421614" then "arbitrum-sepolia"
  else networkId

lemma networkAliases_canonical {s v : String} (h : networkAliases s = some v) :
    v = "eip155:42161" ∨ v = "eip155:421614" := by
  unfold networkAliases at h
  split_ifs at h <;> simp_all

lemma lowerString_empty_iff (s : String) : lowerString s = "" ↔ s = "" := by
  constructor
  · intro h
    unfold lowerString at h
    have : s.data.map lowerChar = [] := congrArg String.data h
    have hd : s.data = [] := by simpa using this
    cases s
    simp_all
  · intro h; subst h; rfl

lemma lowerNormalize_some (s : String) :
    normalizeNetworkId (some s) =
      if s = "" then ""
      else
        lowerString
          (match networkAliases (lowerString s) with
           | some v => v
           | none => s) := rfl

lemma lowerNormalize_idem (s? : Option String) :
    normalizeNetworkId (some (normalizeNetworkId s?)) = normalizeNetworkId s? := by
  match s? with
  | none => decide
  | some s =>
    by_cases hs : s = ""
    · subst hs; decide
    · rw [lowerNormalize_some s, if_neg hs]
      cases h1 : networkAliases (lowerString s) with
      | some v =>
        rcases networkAliases_canonical h1 with hv | hv <;> subst hv
        · exact (by decide :
            normalizeNetworkId (some (lowerString "eip155:42161")) = lowerString "eip155:42161")
        · exact (by decide :
            normalizeNetworkId (some (lowerString "eip155:421614")) = lowerString "eip155:421614")
      | none =>
        show normalizeNetworkId (some (lowerString s)) = lowerString s
        have hne : ¬ lowerString s = "" := fun h => hs ((lowerString_empty_iff s).mp h)
        rw [lowerNormalize_some (lowerString s), if_neg hne, lowerString_idem s, h1]
        exact lowerString_idem s

end Ap2X402Utils

/-- C7: normalizeNetworkId is idempotent and case-insensitively maps all
supported aliases of one network ('arbitrum', 'eip155:42161', 'ARBITRUM')
to the same canonical value; a missing input yields the empty-string
sentinel and neither variant ever throws (both are total functions); an
unknown input is returned unchanged by the enum-based variant and
returned lowercased by the lowercasing variant. -/
theorem C7_normalize_idempotent_amended :
    (∀ s? : Option String,
        AppX402Utils.normalizeNetworkId (some (AppX402Utils.normalizeNetworkId s?)) =
          AppX402Utils.normalizeNetworkId s?) ∧
    (∀ s? : Option String,
        Ap2X402Utils.normalizeNetworkId (some (Ap2X402Utils.normalizeNetworkId s?)) =
          Ap2X402Utils.normalizeNetworkId s?) ∧
    (AppX402Utils.normalizeNetworkId (some "arbitrum") = "eip155:42161" ∧
      AppX402Utils.normalizeNetworkId (some "ARBITRUM") = "eip155:42161" ∧
      AppX402Utils.normalizeNetworkId (some "eip155:42161") = "eip155:42161") ∧
    (Ap2X402Utils.normalizeNetworkId (some "arbitrum") = "eip155:42161" ∧
      Ap2X402Utils.normalizeNetworkId (some "ARBITRUM") = "eip155:42161" ∧
      Ap2X402Utils.normalizeNetworkId (some "eip155:42161") = "eip155:42161") ∧
    (AppX402Utils.normalizeNetworkId none = "" ∧ Ap2X402Utils.normalizeNetworkId none = "") ∧
    (∀ s : String, s ≠ "" → AppX402Utils.aliasToCaip s = none →
        AppX402Utils.aliasToCaip (lowerString s) = none →
        AppX402Utils.normalizeNetworkId (some s) = s) ∧
    (∀ s : String, s ≠ "" → Ap2X402Utils.networkAliases (lowerString s) = none →
        Ap2X402Utils.normalizeNetworkId (some s) = lowerString s) := by
  refine ⟨AppX402Utils.appNormalize_idem, Ap2X402Utils.lowerNormalize_idem,
    ⟨by decide, by decide, by decide⟩, ⟨by decide, by decide, by decide⟩, ⟨rfl, rfl⟩,
    ?_, ?_⟩
  · intro s hs h1 h2
    rw [AppX402Utils.appNormalize_some s, if_neg hs, h1, h2]
  · intro s hs h1
    rw [Ap2X402Utils.lowerNormalize_some s, if_neg hs, h1]

/-- C7 counterexample: on the unknown input "FOO" the lowercasing variant
of normalizeNetworkId returns "foo", which is neither the empty-string
sentinel nor the input unchanged. -/
theorem C7_sentinel_counterexample :
    Ap2X402Utils.normalizeNetworkId (some "FOO") = "foo" ∧
      ("foo" : String) ≠ "FOO" ∧ ("foo" : String) ≠ "" := by
  refine ⟨by decide, by decide, by decide⟩

/-- C7 witness: the amended unknown-input clauses at the concrete inputs
"zz-net" (enum variant, returned unchanged) and "FOO" (lowercasing
variant, returned lowercased). -/
theorem C7_normalize_idempotent_amended_witness :
    AppX402Utils.normalizeNetworkId (some "zz-net") = "zz-net" ∧
      Ap2X402Utils.normalizeNetworkId (some "FOO") = lowerString "FOO" := by
  exact ⟨C7_normalize_idempotent_amended.2.2.2.2.2.1 "zz-net" (by decide) (by decide) (by decide),
    C7_normalize_idempotent_amended.2.2.2.2.2.2 "FOO" (by decide) (by decide)⟩

namespace Settlement

/-!
`SettlementService` from the x402 app (`settlement.ts`): EIP-3009
settlement over viem.  RPC round-trips are oracle inputs collected in
`ChainEnv`; the second component of `settlePayment`'s result records
whether `writeContract` was invoked (a transaction broadcast attempt).
-/

/-- The `payload` part of an `EIP3009PaymentPayload` (`from` is a Lean
keyword, rendered `fromAddr`). -/
structure EIP3009Payload where
  fromAddr : String
  toAddr : String
  value : String
  validAfter : Nat
  validBefore : Nat
  nonce : String
  v : Nat
  r : String
  s : String
deriving DecidableEq, Repr

/-- `GasEstimate` as returned by `estimateGas`. -/
structure GasEstimate where
  gasLimit : Nat
  gasPrice : Nat
  maxFeePerGas : Nat
  maxPriorityFeePerGas : Nat
  estimatedCost : Nat
deriving DecidableEq, Repr

/-- `SettlementResult`. -/
structure SettlementResult where
  success : Bool
  transactionHash : Option String := none
  blockNumber : Option Nat := none
  gasUsed : Option Nat := none
  error : Option String := none
deriving DecidableEq, Repr

/-- Outcomes of the RPC calls `settlePayment`/`estimateGas` perform, as
oracle inputs: `estimateContractGas` (gas units or thrown message),
`getGasPrice`, the latest block's `baseFeePerGas` (`null` modelled as
`none`), the `authorizationState` read (`Except.error` = RPC throw),
`writeContract` (tx hash or thrown message) and
`waitForTransactionReceipt` (status flag, block number, gas used). -/
structure ChainEnv where
  estimateContractGas : Except String Nat
  getGasPrice : Nat
  baseFeePerGas : Option Nat
  authorizationState : Except Unit Bool
  writeContract : Except String String
  receipt : Except String (Bool × Nat × Nat)
deriving Repr

/-- The two `ENV` knobs `settlePayment` reads:
`GAS_PRICE_MULTIPLIER` as `Math.floor(multiplier * 100)` and
`MAX_GAS_PRICE_GWEI`. -/
structure SettlementEnvVars where
  gasPriceMultiplier100 : Nat
  maxGasPriceGwei : Nat
deriving DecidableEq, Repr

/-- `estimateGas`: a 20%-style buffer on the RPC gas estimate, EIP-1559
fees from the base fee (`maxPriorityFeePerGas = parseGwei('0.01')` =
10^7 wei, `maxFeePerGas = 2 * baseFee + priority`), and the estimated
cost `bufferedGasLimit * maxFeePerGas`; any throw inside the `try` is
re-thrown as "Failed to estimate gas: ...". -/
def estimateGas (cfg : SettlementEnvVars) (env : ChainEnv) (p : EIP3009Payload) :
    Except String GasEstimate :=
  match parseBigInt? p.value with
  | none => .error ("Failed to estimate gas: Cannot convert " ++ p.value ++ " to a BigInt")
  | some _ =>
      match env.estimateContractGas with
      | .error e => .error ("Failed to estimate gas: " ++ e)
      | .ok gasLimit =>
          let baseFeePerGas := env.baseFeePerGas.getD 0
          let maxPriorityFeePerGas := 10000000
          let maxFeePerGas := baseFeePerGas * 2 + maxPriorityFeePerGas
          let bufferedGasLimit := gasLimit * cfg.gasPriceMultiplier100 / 100
          .ok { gasLimit := bufferedGasLimit, gasPrice := env.getGasPrice,
                maxFeePerGas := maxFeePerGas, maxPriorityFeePerGas := maxPriorityFeePerGas,
                estimatedCost := bufferedGasLimit * maxFeePerGas }

/-- `isAuthorizationUsed`: the `authorizationState` view call; a throw is
caught and reported as `false`. -/
def isAuthorizationUsed (env : ChainEnv) : Bool :=
  match env.authorizationState with
  | .ok b => b
  | .error _ => false

/-- `settlePayment`: nonce re-check, gas estimation, the
max-gas-price ceiling check (`maxFeePerGas > parseGwei(MAX_GAS_PRICE_GWEI)`),
then `transferWithAuthorization` submission and a one-confirmation wait.
The second component records whether `writeContract` was invoked. -/
def settlePayment (cfg : SettlementEnvVars) (env : ChainEnv) (p : EIP3009Payload) :
    SettlementResult × Bool :=
  if isAuthorizationUsed env then
    ({ success := false, error := some "Authorization already used" }, false)
  else
    match estimateGas cfg env p with
    | .error e => ({ success := false, error := some e }, false)
    | .ok g =>
        let maxGasPriceWei := cfg.maxGasPriceGwei * 1000000000
        if g.maxFeePerGas > maxGasPriceWei then
          ({ success := false,
             error := some ("Gas price too high: " ++ toString g.maxFeePerGas ++ " > " ++
               toString maxGasPriceWei) }, false)
        else
          match env.writeContract with
          | .error e => ({ success := false, error := some e }, true)
          | .ok hash =>
              match env.receipt with
              | .error e => ({ success := false, error := some e }, true)
              | .ok (status, blockNumber, gasUsed) =>
                  if status then
                    ({ success := true, transactionHash := some hash,
                       blockNumber := some blockNumber, gasUsed := some gasUsed }, true)
                  else
                    ({ success := false, transactionHash := some hash,
                       error := some "Transaction reverted" }, true)

end Settlement

/-- C4: whenever the token contract's authorizationState read reports the
nonce as already consumed, settlePayment returns success false with error
"Authorization already used" and never invokes writeContract, for every
payload (hence regardless of value or recipient) and every configuration. -/
theorem C4_replay_rejected (cfg : Settlement.SettlementEnvVars) (env : Settlement.ChainEnv)
    (p : Settlement.EIP3009Payload) (h : env.authorizationState = Except.ok true) :
    Settlement.settlePayment cfg env p =
      ({ success := false, error := some "Authorization already used" }, false) := by
  unfold Settlement.settlePayment Settlement.isAuthorizationUsed
  rw [h]
  rfl

/-- C4 witness: a concrete environment whose authorizationState read
reports `true` makes settlePayment fail with "Authorization already used"
and no broadcast. -/
theorem C4_replay_rejected_witness :
    Settlement.settlePayment { gasPriceMultiplier100 := 120, maxGasPriceGwei := 1 }
      { estimateContractGas := Except.ok 100, getGasPrice := 1, baseFeePerGas := some 200,
        authorizationState := Except.ok true, writeContract := Except.ok "0xabc",
        receipt := Except.ok (true, 7, 21000) }
      { fromAddr := "0xpayer", toAddr := "0xfac", value := "1000", validAfter := 0,
        validBefore := 99, nonce := "0x01", v := 27, r := "0xr", s := "0xs" } =
      ({ success := false, error := some "Authorization already used" }, false) :=
  C4_replay_rejected _ _ _ rfl

/-- Concrete chain environment for the C5 counterexample: gas estimate
100 units, base fee 495000000 wei, nonce unused, submission and receipt
succeed. -/
def c5Env : Settlement.ChainEnv :=
  { estimateContractGas := Except.ok 100, getGasPrice := 1,
    baseFeePerGas := some 495000000, authorizationState := Except.ok false,
    writeContract := Except.ok "0xabc", receipt := Except.ok (true, 7, 21000) }

/-- Settlement env vars for the C5 counterexample: 1.2 gas buffer,
1 gwei max gas price. -/
def c5Cfg : Settlement.SettlementEnvVars :=
  { gasPriceMultiplier100 := 120, maxGasPriceGwei := 1 }

/-- Payload for the C5 counterexample. -/
def c5Payload : Settlement.EIP3009Payload :=
  { fromAddr := "0xpayer", toAddr := "0xfac", value := "1000", validAfter := 0,
    validBefore := 99, nonce := "0x01", v := 27, r := "0xr", s := "0xs" }

/-- C5 counterexample: with a 1 gwei ceiling (10^9 wei), a buffered gas
limit of 120 and maxFeePerGas of exactly 10^9 wei, the estimated fee
(estimatedCost = 120 * 10^9 wei) exceeds the ceiling, yet settlePayment
submits the transaction and succeeds: the code caps only the per-gas
maxFeePerGas, never the total estimated fee. -/
theorem C5_counterexample :
    Settlement.estimateGas c5Cfg c5Env c5Payload =
      Except.ok { gasLimit := 120, gasPrice := 1, maxFeePerGas := 1000000000,
                  maxPriorityFeePerGas := 10000000, estimatedCost := 120000000000 } ∧
    (120000000000 : Nat) > c5Cfg.maxGasPriceGwei * 1000000000 ∧
    (Settlement.settlePayment c5Cfg c5Env c5Payload).1.success = true ∧
    (Settlement.settlePayment c5Cfg c5Env c5Payload).2 = true :=
  ⟨rfl, by norm_num [c5Cfg], rfl, rfl⟩

/-- C5 (amended): settlePayment fails closed exactly on the per-gas
comparison: whenever the nonce pre-check passes and gas estimation
returns an estimate whose maxFeePerGas exceeds the configured
maximum-gas-price ceiling (MAX_GAS_PRICE_GWEI in wei), it returns
success false with a "Gas price too high" error and invokes no
writeContract. -/
theorem C5_gas_ceiling_amended (cfg : Settlement.SettlementEnvVars)
    (env : Settlement.ChainEnv) (p : Settlement.EIP3009Payload) (g : Settlement.GasEstimate)
    (hused : Settlement.isAuthorizationUsed env = false)
    (hest : Settlement.estimateGas cfg env p = Except.ok g)
    (hgas : g.maxFeePerGas > cfg.maxGasPriceGwei * 1000000000) :
    Settlement.settlePayment cfg env p =
      ({ success := false,
         error := some ("Gas price too high: " ++ toString g.maxFeePerGas ++ " > " ++
           toString (cfg.maxGasPriceGwei * 1000000000)) }, false) := by
  unfold Settlement.settlePayment
  rw [hused, hest]
  simp only [Bool.false_eq_true, if_false]
  rw [if_pos hgas]

/-- Chain environment for the C5 witness: zero-gwei ceiling, so the
10^7 wei priority fee alone exceeds it. -/
def c5wEnv : Settlement.ChainEnv :=
  { estimateContractGas := Except.ok 100, getGasPrice := 5,
    baseFeePerGas := none, authorizationState := Except.ok false,
    writeContract := Except.ok "0xabc", receipt := Except.ok (true, 7, 21000) }

/-- Settlement env vars for the C5 witness. -/
def c5wCfg : Settlement.SettlementEnvVars :=
  { gasPriceMultiplier100 := 120, maxGasPriceGwei := 0 }

/-- Gas estimate obtained in the C5 witness environment. -/
def c5wGas : Settlement.GasEstimate :=
  { gasLimit := 120, gasPrice := 5, maxFeePerGas := 10000000,
    maxPriorityFeePerGas := 10000000, estimatedCost := 1200000000 }

/-- C5 witness: the amended theorem applied at a concrete environment
whose maxFeePerGas (10^7 wei) exceeds a zero ceiling. -/
theorem C5_gas_ceiling_amended_witness :
    Settlement.settlePayment c5wCfg c5wEnv c5Payload =
      ({ success := false,
         error := some ("Gas price too high: " ++ toString (10000000 : Nat) ++ " > " ++
           toString (0 : Nat)) }, false) :=
  C5_gas_ceiling_amended c5wCfg c5wEnv c5Payload c5wGas rfl rfl (by norm_num [c5wCfg, c5wGas])

/-- C10: when the on-chain authorizationState read throws,
isAuthorizationUsed swallows the error and returns false, and
settlePayment then behaves exactly as if the read had reported the
authorization unused — the replay-protection pre-check fails open. -/
theorem C10_auth_read_fails_open (cfg : Settlement.SettlementEnvVars)
    (env : Settlement.ChainEnv) (p : Settlement.EIP3009Payload)
    (h : env.authorizationState = Except.error ()) :
    Settlement.isAuthorizationUsed env = false ∧
    Settlement.settlePayment cfg env p =
      Settlement.settlePayment cfg { env with authorizationState := Except.ok false } p := by
  have h1 : Settlement.isAuthorizationUsed env = false := by
    unfold Settlement.isAuthorizationUsed
    rw [h]
  refine ⟨h1, ?_⟩
  unfold Settlement.settlePayment
  rw [h1]
  rfl

/-- C10 witness: a concrete environment whose authorizationState read
throws; the pre-check reports unused and settlement proceeds as if the
nonce were fresh. -/
theorem C10_auth_read_fails_open_witness :
    Settlement.isAuthorizationUsed
        { estimateContractGas := Except.ok 100, getGasPrice := 1, baseFeePerGas := some 200,
          authorizationState := Except.error (), writeContract := Except.ok "0xabc",
          receipt := Except.ok (true, 7, 21000) } = false ∧
    Settlement.settlePayment c5Cfg
        { estimateContractGas := Except.ok 100, getGasPrice := 1, baseFeePerGas := some 200,
          authorizationState := Except.error (), writeContract := Except.ok "0xabc",
          receipt := Except.ok (true, 7, 21000) } c5Payload =
      Settlement.settlePayment c5Cfg
        { estimateContractGas := Except.ok 100, getGasPrice := 1, baseFeePerGas := some 200,
          authorizationState := Except.ok false, writeContract := Except.ok "0xabc",
          receipt := Except.ok (true, 7, 21000) } c5Payload :=
  C10_auth_read_fails_open c5Cfg _ c5Payload rfl

namespace QuoteService

/-!
The quote-service `/quote` handler (`quote-service/server.ts`): x402
verification pipeline followed by optional on-chain settlement.  The
EIP-712 signature recovery performed by `verifyTransferAuthorization`
is elliptic-curve cryptography and enters the model as the oracle input
`recoveredSigner : Option String` (`null` = recovery failed); the
handler's comparison of that result against the claimed payer is
embedded verbatim.
-/

/-- An `EIP3009PaymentPayload` as parsed from the payment headers. -/
structure EIP3009PaymentPayload where
  scheme : String
  network : String
  payload : Settlement.EIP3009Payload
deriving DecidableEq, Repr

/-- The single `accepts[0]` requirement built by `buildRequirements()`. -/
structure X402PaymentRequirement where
  scheme : String
  network : String
  maxAmountRequired : String
  resource : String
  description : String
  mimeType : String
  payTo : String
  maxTimeoutSeconds : Nat
  asset : String
  extraName : String
  extraVersion : String
deriving DecidableEq, Repr

/-- `buildRequirements()`: fixed scheme/network/amount with the signer
address as payTo and the deployed USDC address as asset. -/
def buildRequirements (signerAddress usdcAddress : String) : X402PaymentRequirement :=
  { scheme := "exact", network := "eip155:421614", maxAmountRequired := "1000",
    resource := "/quote", description := "Payment for swap quote generation",
    mimeType := "application/json", payTo := signerAddress, maxTimeoutSeconds := 300,
    asset := usdcAddress, extraName := "TestUSDC", extraVersion := "1" }

/-- The amount step of the handler: `BigInt(payload.value)` and
`BigInt(requirement.maxAmountRequired)` (a throw propagates to the outer
catch), then rejection when the payment amount is strictly below the
required amount. -/
def amountCheck (value required : String) : Except String Int :=
  match parseBigInt? value with
  | none => .error ("Cannot convert " ++ value ++ " to a BigInt")
  | some paymentAmount =>
      match parseBigInt? required with
      | none => .error ("Cannot convert " ++ required ++ " to a BigInt")
      | some requiredAmount =>
          if paymentAmount < requiredAmount then
            .error ("Insufficient payment amount. Required: " ++ toString requiredAmount ++
              ", provided: " ++ toString paymentAmount)
          else .ok paymentAmount

/-- The verification pipeline of the `/quote` handler, in source order:
scheme/network, amount, recipient, signature recovery comparison,
time window. -/
def quoteVerify (req : X402PaymentRequirement) (p : EIP3009PaymentPayload)
    (recoveredSigner : Option String) (now : Nat) : Except String Unit :=
  if p.scheme ≠ "exact" ∨ AppX402Utils.normalizeNetworkId (some p.network) ≠ "eip155:421614" then
    .error "Unsupported payment scheme or network"
  else
    match amountCheck p.payload.value req.maxAmountRequired with
    | .error e => .error e
    | .ok _ =>
        if lowerString p.payload.toAddr ≠ lowerString req.payTo then
          .error "Payment recipient mismatch"
        else
          match recoveredSigner with
          | none => .error "Invalid payment signature"
          | some rs =>
              if lowerString rs ≠ lowerString p.payload.fromAddr then
                .error "Invalid payment signature"
              else if now < p.payload.validAfter ∨ now > p.payload.validBefore then
                .error "Payment authorization expired or not yet valid"
              else .ok ()

/-- The `/quote` handler through its settlement step: after verification,
when settlement is enabled, `settlePayment` runs and a failure is
reported as a 402 with reason `Settlement failed: <error>`. -/
def quoteHandler (req : X402PaymentRequirement) (p : EIP3009PaymentPayload)
    (recoveredSigner : Option String) (now : Nat) (settlementEnabled : Bool)
    (cfg : Settlement.SettlementEnvVars) (env : Settlement.ChainEnv) : Except String Unit :=
  match quoteVerify req p recoveredSigner now with
  | .error e => .error e
  | .ok _ =>
      if settlementEnabled then
        let result := (Settlement.settlePayment cfg env p.payload).1
        if result.success then .ok ()
        else .error ("Settlement failed: " ++ result.error.getD "undefined")
      else .ok ()

/-- Modelled from the spec: the claim's seven-step validation order,
with the token-address check ("token address equals the configured
asset") inserted as step 4 between the recipient check and the signature
check; each step short-circuits with its reason (the code's reason
strings are reused so that the comparison is literal). -/
def specC2Verify (req : X402PaymentRequirement) (configuredAsset : String)
    (p : EIP3009PaymentPayload) (recoveredSigner : Option String) (now : Nat) :
    Except String Unit :=
  if ¬ (p.scheme = "exact" ∧ AppX402Utils.normalizeNetworkId (some p.network) = "eip155:421614") then
    .error "Unsupported payment scheme or network"
  else
    match amountCheck p.payload.value req.maxAmountRequired with
    | .error e => .error e
    | .ok _ =>
        if lowerString p.payload.toAddr ≠ lowerString req.payTo then
          .error "Payment recipient mismatch"
        else if req.asset ≠ configuredAsset then
          .error "Invalid token"
        else
          match recoveredSigner with
          | none => .error "Invalid payment signature"
          | some rs =>
              if lowerString rs ≠ lowerString p.payload.fromAddr then
                .error "Invalid payment signature"
              else if now < p.payload.validAfter ∨ now > p.payload.validBefore then
                .error "Payment authorization expired or not yet valid"
              else .ok ()

end QuoteService

lemma settlePayment_of_used (cfg : Settlement.SettlementEnvVars) (env : Settlement.ChainEnv)
    (p : Settlement.EIP3009Payload) (h : env.authorizationState = Except.ok true) :
    Settlement.settlePayment cfg env p =
      ({ success := false, error := some "Authorization already used" }, false) := by
  unfold Settlement.settlePayment Settlement.isAuthorizationUsed
  rw [h]
  rfl

/-- C2: on the requirement actually built by the handler (whose asset is
by construction the configured USDC address, so the claim's token check
is satisfied by every request), the handler's validation pipeline
coincides with the claim's seven-step short-circuiting pipeline for all
inputs, and a verified payment whose nonce the chain reports consumed is
rejected by the settlement step with the distinct reason
"Settlement failed: Authorization already used". -/
theorem C2_validation_order (signerAddress usdcAddress : String)
    (p : QuoteService.EIP3009PaymentPayload) (recoveredSigner : Option String) (now : Nat)
    (cfg : Settlement.SettlementEnvVars) (env : Settlement.ChainEnv) :
    (QuoteService.specC2Verify (QuoteService.buildRequirements signerAddress usdcAddress)
        usdcAddress p recoveredSigner now =
      QuoteService.quoteVerify (QuoteService.buildRequirements signerAddress usdcAddress)
        p recoveredSigner now) ∧
    (QuoteService.quoteVerify (QuoteService.buildRequirements signerAddress usdcAddress)
        p recoveredSigner now = Except.ok () →
      env.authorizationState = Except.ok true →
      QuoteService.quoteHandler (QuoteService.buildRequirements signerAddress usdcAddress)
        p recoveredSigner now true cfg env =
        Except.error "Settlement failed: Authorization already used") := by
  constructor
  · unfold QuoteService.specC2Verify QuoteService.quoteVerify
    by_cases h1 : p.scheme = "exact" ∧
        AppX402Utils.normalizeNetworkId (some p.network) = "eip155:421614"
    · rw [if_neg (not_not_intro h1),
        if_neg (show ¬ (p.scheme ≠ "exact" ∨
            AppX402Utils.normalizeNetworkId (some p.network) ≠ "eip155:421614") by
          push_neg; exact h1)]
      cases QuoteService.amountCheck p.payload.value
          (QuoteService.buildRequirements signerAddress usdcAddress).maxAmountRequired with
      | error e => rfl
      | ok a =>
          by_cases h2 : lowerString p.payload.toAddr =
              lowerString (QuoteService.buildRequirements signerAddress usdcAddress).payTo
          · rw [if_neg (not_not_intro h2), if_neg (not_not_intro h2),
              if_neg (not_not_intro (show
                (QuoteService.buildRequirements signerAddress usdcAddress).asset = usdcAddress
                from rfl))]
          · rw [if_pos h2, if_pos h2]
    · rw [if_pos h1, if_pos (by rw [not_and_or] at h1; rcases h1 with h | h <;> simp [h])]
  · intro hok hused
    unfold QuoteService.quoteHandler
    rw [hok, settlePayment_of_used cfg env p.payload hused]
    rfl

lemma containsSubstr_of_isPrefixOf {s sub : String} (h : sub.data.isPrefixOf s.data = true) :
    containsSubstr s sub = true := by
  unfold containsSubstr
  rw [List.any_eq_true]
  exact ⟨0, by simp, by simpa using h⟩

/-- C3 counterexample: the rejection reason the code produces for value
"500" against requirement "1000" is "Insufficient payment amount.
Required: 1000, provided: 500", and the phrase "insufficient amount"
does not occur in it (the phrase that does occur is "Insufficient
payment amount"). -/
theorem C3_counterexample :
    QuoteService.amountCheck "500" "1000" =
      Except.error "Insufficient payment amount. Required: 1000, provided: 500" ∧
    containsSubstr "Insufficient payment amount. Required: 1000, provided: 500"
      "insufficient amount" = false ∧
    containsSubstr "Insufficient payment amount. Required: 1000, provided: 500"
      "Insufficient payment amount" = true :=
  ⟨rfl, by decide, by decide⟩

/-- C3 (amended): for decimal integer strings v and m, the amount step
accepts exactly when BigInt(v) is at least BigInt(m); for every v
strictly below m it rejects with a reason that contains "Insufficient
payment amount" (not the spec's literal "insufficient amount"); the step
is a function of the two amount strings alone, so no other request field
can affect its outcome. -/
theorem C3_amount_monotone_amended (v m : String) (a b : Int)
    (hv : parseBigInt? v = some a) (hm : parseBigInt? m = some b) :
    (QuoteService.amountCheck v m = Except.ok a ↔ b ≤ a) ∧
    (a < b → QuoteService.amountCheck v m =
       Except.error ("Insufficient payment amount. Required: " ++ toString b ++
         ", provided: " ++ toString a)) ∧
    (a < b → containsSubstr ("Insufficient payment amount. Required: " ++ toString b ++
         ", provided: " ++ toString a) "Insufficient payment amount" = true) := by
  have heq : QuoteService.amountCheck v m =
      if a < b then
        Except.error ("Insufficient payment amount. Required: " ++ toString b ++
          ", provided: " ++ toString a)
      else Except.ok a := by
    unfold QuoteService.amountCheck
    rw [hv, hm]
  rw [heq]
  by_cases hab : a < b
  · rw [if_pos hab]
    refine ⟨⟨fun h => absurd h (by simp), fun h => absurd hab (by omega)⟩, fun _ => rfl,
      fun _ => ?_⟩
    apply containsSubstr_of_isPrefixOf
    rw [List.isPrefixOf_iff_prefix]
    simp only [String.data_append, List.append_assoc]
    exact List.IsPrefix.trans (by decide) (List.prefix_append _ _)
  · rw [if_neg hab]
    exact ⟨⟨fun _ => by omega, fun _ => rfl⟩, fun h => absurd h hab, fun h => absurd h hab⟩

/-- C3 witness: the amended theorem applied at value "500" against
requirement "1000". -/
theorem C3_amount_monotone_amended_witness :
    QuoteService.amountCheck "500" "1000" =
      Except.error ("Insufficient payment amount. Required: " ++ toString (1000 : Int) ++
        ", provided: " ++ toString (500 : Int)) :=
  (C3_amount_monotone_amended "500" "1000" 500 1000 (by decide) (by decide)).2.1 (by norm_num)

/-- Payload for the C2 witness: network `eip155:421614`, paying 1000 to
the signer, within the validity window. -/
def c2wPayload : QuoteService.EIP3009PaymentPayload :=
  { scheme := "exact", network := "eip155:421614",
    payload := { fromAddr := "0xpayer", toAddr := "0xsigner", value := "1000", validAfter := 0,
                 validBefore := 10, nonce := "0x01", v := 27, r := "0xr", s := "0xs" } }

/-- Chain environment whose authorizationState read reports the nonce
consumed (C2 witness). -/
def c2wEnv : Settlement.ChainEnv :=
  { estimateContractGas := Except.ok 100, getGasPrice := 1, baseFeePerGas := some 200,
    authorizationState := Except.ok true, writeContract := Except.ok "0xabc",
    receipt := Except.ok (true, 7, 21000) }

/-- C2 witness: the nonce clause applied to a fully verified concrete
payment whose nonce the chain reports consumed. -/
theorem C2_validation_order_witness :
    QuoteService.quoteHandler (QuoteService.buildRequirements "0xsigner" "0xusdc") c2wPayload
      (some "0xpayer") 5 true c5Cfg c2wEnv =
      Except.error "Settlement failed: Authorization already used" :=
  (C2_validation_order "0xsigner" "0xusdc" c2wPayload (some "0xpayer") 5 c5Cfg c2wEnv).2
    rfl rfl

namespace Facilitator

/-!
The SDK-style facilitator (`services/facilitator/server.ts`): zod
structural validation (`SDKVerifyRequestSchema`), the packed-signature
codec (`sdkRequestToInternal`), the `POST /verify` logic (which performs
no chain write) and the `POST /settle` logic (which executes an ERC-20
`transferFrom`).  Chain writes performed by a handler are returned
explicitly as a `List ChainWrite`.
-/

/-- The `permit` bundle of an `SDKVerifyRequest`. -/
structure Permit where
  owner : String
  spender : String
  value : String
  deadline : Int
  sig : String
deriving DecidableEq, Repr

/-- The `extra` object of an `SDKVerifyRequest`. -/
structure SDKExtra where
  merchantAddress : String
  feeMode : Option String
deriving DecidableEq, Repr

/-- `SDKVerifyRequest` (already JSON-parsed). -/
structure SDKVerifyRequest where
  x402Version : Option Int
  network : String
  token : String
  recipient : String
  amount : String
  nonce : String
  deadline : Int
  memo : Option String
  extra : Option SDKExtra
  permit : Permit
deriving DecidableEq, Repr

/-- The zod regex `/^0x[a-fA-F0-9]{40}$/`. -/
def isHexAddress (s : String) : Bool :=
  match s.data with
  | '0' :: 'x' :: rest => rest.length == 40 && rest.all isHexChar
  | _ => false

/-- The zod regex `/^0x[a-fA-F0-9]{64}$/`. -/
def isBytes32Hex (s : String) : Bool :=
  match s.data with
  | '0' :: 'x' :: rest => rest.length == 64 && rest.all isHexChar
  | _ => false

/-- `SDKVerifyRequestSchema.safeParse(...).success`: the structural
validation of the request. -/
def sdkVerifyRequestValid (r : SDKVerifyRequest) : Bool :=
  decide (1 ≤ r.network.length) && isHexAddress r.token && isHexAddress r.recipient &&
  isBytes32Hex r.nonce &&
  (match r.extra with
   | none => true
   | some e => isHexAddress e.merchantAddress) &&
  isHexAddress r.permit.owner && isHexAddress r.permit.spender

/-- `String.prototype.slice(a, b)` (character indices). -/
def charsSlice (s : String) (a b : Nat) : String := ⟨(s.data.drop a).take (b - a)⟩

/-- Numeric value of a hex digit. -/
def hexDigitVal (c : Char) : Nat :=
  if isDigitChar c then c.toNat - 48
  else if 97 ≤ c.toNat ∧ c.toNat ≤ 102 then c.toNat - 87
  else c.toNat - 55

/-- `parseInt(s, 16)` on its hex-prefix fragment (`NaN` modelled as
`none`). -/
def parseHexNat? (s : String) : Option Nat :=
  let pre := s.data.takeWhile isHexChar
  if pre = [] then none
  else some (pre.foldl (fun acc c => 16 * acc + hexDigitVal c) 0)

/-- A `PaymentPayload` as built internally by the facilitator (`from`
rendered `fromAddr`; `v` is `parseInt(...)`, possibly `NaN`). -/
structure FacPaymentPayload where
  x402Version : Int
  scheme : String
  network : String
  fromAddr : String
  toAddr : String
  value : String
  validAfter : Nat
  validBefore : Int
  nonce : String
  v : Option Nat
  r : String
  s : String
deriving DecidableEq, Repr

/-- `PaymentRequirementsV1` as built internally by the facilitator. -/
structure FacPaymentRequirementsV1 where
  scheme : String
  network : String
  token : String
  amount : String
  recipient : String
  description : String
  maxTimeoutSeconds : Nat
  merchantAddress : Option String
deriving DecidableEq, Repr

/-- `sdkRequestToInternal`: rejects any packed signature whose length is
not exactly 132 characters before slicing it into r/s/v. -/
def sdkRequestToInternal (r : SDKVerifyRequest) :
    Option (FacPaymentPayload × FacPaymentRequirementsV1) :=
  if r.permit.sig.length ≠ 132 then none
  else
    let sig := r.permit.sig
    some
      ({ x402Version :=
           match r.x402Version with
           | none => 1
           | some n => if n = 0 then 1 else n,
         scheme := "exact", network := r.network, fromAddr := r.permit.owner,
         toAddr := r.permit.spender, value := r.permit.value, validAfter := 0,
         validBefore := r.permit.deadline, nonce := r.nonce,
         v := parseHexNat? (charsSlice sig 130 132),
         r := "0x" ++ charsSlice sig 2 66, s := "0x" ++ charsSlice sig 66 130 },
       { scheme := "exact", network := r.network, token := r.token, amount := r.amount,
         recipient := r.recipient, description := r.memo.getD "", maxTimeoutSeconds := 3600,
         merchantAddress := r.extra.map (fun e => e.merchantAddress) })

/-- Responses of the `POST /verify` handler. -/
inductive VerifyResponse where
  | valid
  | clientError (msg : String)
deriving DecidableEq, Repr

/-- On-chain write operations a handler may perform. -/
inductive ChainWrite where
  | transferFrom (token fromAddr toAddr : String) (value : Int)
deriving DecidableEq, Repr

/-- The facilitator's static configuration: active network (canonical
CAIP-2), the facilitator account address and the configured USDC
address. -/
structure FacConfig where
  network : String
  facilitatorAddress : String
  usdcAddress : String
deriving DecidableEq, Repr

/-- The decision logic of `POST /verify` on a parsed body: structural
validation, recipient check, signature-format codec and network checks;
thrown errors become a 400 "Invalid request". -/
def facilitatorVerifyLogic (cfg : FacConfig) (r : SDKVerifyRequest) : VerifyResponse :=
  if sdkVerifyRequestValid r = false then
    .clientError "Invalid payment verification request format"
  else if lowerString r.recipient ≠ lowerString cfg.facilitatorAddress then
    .clientError "Recipient must be the facilitator address"
  else
    match sdkRequestToInternal r with
    | none => .clientError "Invalid signature format"
    | some (pp, pr) =>
        if AppX402Utils.normalizeNetworkId (some pr.network) ≠ cfg.network then
          .clientError "Invalid request"
        else if AppX402Utils.normalizeNetworkId (some pp.network) ≠
            AppX402Utils.normalizeNetworkId (some pr.network) then
          .clientError "Invalid request"
        else .valid

/-- `POST /verify`: the handler body performs no `writeContract` call,
so its write list is empty by construction (a missing/unparsable body is
`none`). -/
def facilitatorVerifyPost (cfg : FacConfig) (body : Option SDKVerifyRequest) :
    VerifyResponse × List ChainWrite :=
  (match body with
   | none => .clientError "Missing payment payload body or PAYMENT-SIGNATURE header."
   | some r => facilitatorVerifyLogic cfg r, [])

/-- Responses of the `POST /settle` handler. -/
inductive SettleResponse where
  | ok (transactionHash : String) (blockNumber : Nat)
  | unauthorized (msg : String)
  | clientError (msg : String)
deriving DecidableEq, Repr

/-- RPC outcomes for the settle handler. -/
structure FacSettleEnv where
  writeContract : Except String String
  receiptBlockNumber : Nat
deriving Repr

/-- `POST /settle`: API key, parse, structural validation, signature
codec, network/token/recipient/amount checks, then the ERC-20
`transferFrom` submission (recorded as a `ChainWrite`). -/
def facilitatorSettlePost (cfg : FacConfig) (merchantApiKey : String)
    (apiKeyHeader : Option String) (body : Option SDKVerifyRequest) (env : FacSettleEnv) :
    SettleResponse × List ChainWrite :=
  if merchantApiKey = "" ∨ apiKeyHeader ≠ some merchantApiKey then
    (.unauthorized "Missing or invalid X-API-Key", [])
  else
    match body with
    | none => (.clientError "Missing payment payload body or PAYMENT-SIGNATURE header.", [])
    | some r =>
        if sdkVerifyRequestValid r = false then
          (.clientError "Invalid settlement request format", [])
        else
          match sdkRequestToInternal r with
          | none => (.clientError "Invalid signature format", [])
          | some (pp, pr) =>
              if AppX402Utils.normalizeNetworkId (some pp.network) ≠
                  AppX402Utils.normalizeNetworkId (some pr.network) then
                (.clientError
                  "Invalid request: Error: Network mismatch between payment requirements and payload",
                 [])
              else if AppX402Utils.normalizeNetworkId (some pr.network) ≠ cfg.network then
                (.clientError ("Invalid request: Error: Invalid network - only " ++ cfg.network ++
                  " is supported"), [])
              else if lowerString pr.token ≠ lowerString cfg.usdcAddress then
                (.clientError ("Invalid request: Error: Invalid token address. Only " ++
                  cfg.usdcAddress ++ " is supported."), [])
              else if lowerString pp.toAddr ≠ lowerString cfg.facilitatorAddress then
                (.clientError ("Invalid request: Error: Invalid recipient address. Payments must go to " ++
                  cfg.facilitatorAddress), [])
              else if pr.amount ≠ pp.value then
                (.clientError
                  "Invalid request: Error: Amount mismatch between payment requirements and payload",
                 [])
              else
                match parseBigInt? pr.amount with
                | none =>
                    (.clientError ("Invalid request: SyntaxError: Cannot convert " ++ pr.amount ++
                      " to a BigInt"), [])
                | some amount =>
                    if amount ≤ 0 then
                      (.clientError "Invalid request: Error: Amount must be a positive integer", [])
                    else if amount > 1000000000 then
                      (.clientError
                        "Invalid request: Error: Amount exceeds maximum limit of 1000000000", [])
                    else
                      match env.writeContract with
                      | .error e =>
                          (.clientError ("Invalid request: Error: " ++ e),
                           [.transferFrom cfg.usdcAddress pp.fromAddr cfg.facilitatorAddress amount])
                      | .ok hash =>
                          (.ok hash env.receiptBlockNumber,
                           [.transferFrom cfg.usdcAddress pp.fromAddr cfg.facilitatorAddress amount])

end Facilitator


/-- C1: for every request body, the facilitator's POST /verify performs
no chain write (its ChainWrite list is empty), and whenever it reports
the payment valid, the structural (schema) check passed, the packed
signature passed the 132-character format check, the recipient equalled
the facilitator address and the request's network normalized to the
configured network. -/
theorem C1_verify_structural_sig_no_write (cfg : Facilitator.FacConfig)
    (body : Option Facilitator.SDKVerifyRequest) :
    (Facilitator.facilitatorVerifyPost cfg body).2 = [] ∧
    (∀ r, body = some r →
      (Facilitator.facilitatorVerifyPost cfg body).1 = Facilitator.VerifyResponse.valid →
      Facilitator.sdkVerifyRequestValid r = true ∧
      r.permit.sig.length = 132 ∧
      lowerString r.recipient = lowerString cfg.facilitatorAddress ∧
      AppX402Utils.normalizeNetworkId (some r.network) = cfg.network) := by
  refine ⟨rfl, ?_⟩
  intro r hr hvalid
  subst hr
  have hl : Facilitator.facilitatorVerifyLogic cfg r = Facilitator.VerifyResponse.valid := hvalid
  unfold Facilitator.facilitatorVerifyLogic at hl
  by_cases h1 : Facilitator.sdkVerifyRequestValid r = false
  · rw [if_pos h1] at hl
    exact absurd hl (by simp)
  · rw [if_neg h1] at hl
    have h1t : Facilitator.sdkVerifyRequestValid r = true := by
      cases hb : Facilitator.sdkVerifyRequestValid r
      · exact absurd hb h1
      · rfl
    by_cases h2 : lowerString r.recipient = lowerString cfg.facilitatorAddress
    · rw [if_neg (not_not_intro h2)] at hl
      cases h3 : Facilitator.sdkRequestToInternal r with
      | none => rw [h3] at hl; exact absurd hl (by simp)
      | some pair =>
          obtain ⟨pp, pr⟩ := pair
          rw [h3] at hl
          have hlen : r.permit.sig.length = 132 := by
            by_contra hne
            have hnone : Facilitator.sdkRequestToInternal r = none := by
              unfold Facilitator.sdkRequestToInternal
              rw [if_pos hne]
            rw [hnone] at h3
            cases h3
          have hpr : pr.network = r.network := by
            unfold Facilitator.sdkRequestToInternal at h3
            rw [if_neg (not_not_intro hlen)] at h3
            injection h3 with h3
            have h5 := congrArg (fun q => (Prod.snd q).network) h3
            simp only [] at h5
            exact h5.symm
          have hl2 : (if AppX402Utils.normalizeNetworkId (some pr.network) ≠ cfg.network then
              Facilitator.VerifyResponse.clientError "Invalid request"
            else if AppX402Utils.normalizeNetworkId (some pp.network) ≠
                AppX402Utils.normalizeNetworkId (some pr.network) then
              Facilitator.VerifyResponse.clientError "Invalid request"
            else Facilitator.VerifyResponse.valid) = Facilitator.VerifyResponse.valid := hl
          by_cases h4 : AppX402Utils.normalizeNetworkId (some pr.network) = cfg.network
          · exact ⟨h1t, hlen, h2, hpr ▸ h4⟩
          · rw [if_pos h4] at hl2
            exact absurd hl2 (by simp)
    · rw [if_pos h2] at hl
      exact absurd hl (by simp)

/-- The facilitator address used by the C1 witness. -/
def facAddr : String := "0xabcdef0123456789abcdef0123456789abcdef01"

/-- The USDC address used by the C1 witness. -/
def usdcAddr : String := "0x75faf114eafb1bdbe2f0316df893fd58ce46aa4d"

/-- The facilitator configuration of the C1 witness (Arbitrum One). -/
def c1wCfg : Facilitator.FacConfig :=
  { network := "eip155:42161", facilitatorAddress := facAddr, usdcAddress := usdcAddr }

/-- A well-formed SDK verify request accepted by the C1 witness
configuration (legacy network alias, 132-character packed signature). -/
def c1wReq : Facilitator.SDKVerifyRequest :=
  { x402Version := some 1, network := "arbitrum", token := usdcAddr, recipient := facAddr,
    amount := "1000", nonce := "0x1212121212121212121212121212121212121212121212121212121212121212", deadline := 999, memo := none, extra := none,
    permit := { owner := "0x9a9a9a9a9a9a9a9a9a9a9a9a9a9a9a9a9a9a9a9a", spender := facAddr, value := "1000", deadline := 999,
                sig := "0xababababababababababababababababababababababababababababababababababababababababababababababababababababababababababababababababab" } }

set_option maxRecDepth 16384 in
/-- C1 witness: the theorem applied to a concrete accepted request. -/
theorem C1_verify_structural_sig_no_write_witness :
    Facilitator.sdkVerifyRequestValid c1wReq = true ∧
    c1wReq.permit.sig.length = 132 ∧
    lowerString c1wReq.recipient = lowerString c1wCfg.facilitatorAddress ∧
    AppX402Utils.normalizeNetworkId (some c1wReq.network) = c1wCfg.network :=
  (C1_verify_structural_sig_no_write c1wCfg (some c1wReq)).2 c1wReq rfl rfl

set_option maxRecDepth 16384 in
/-- On the happy path the settle handler does emit the ERC-20
transferFrom chain write: the write-effect model distinguishes the
endpoints. -/
lemma facilitatorSettlePost_emits_transferFrom :
    (Facilitator.facilitatorSettlePost c1wCfg "key" (some "key") (some c1wReq)
      { writeContract := Except.ok "0xhash", receiptBlockNumber := 3 }).2 =
    [Facilitator.ChainWrite.transferFrom c1wCfg.usdcAddress c1wReq.permit.owner
      c1wCfg.facilitatorAddress 1000] := rfl

namespace Ap2Adapter

/-!
`SettlementAdapter.settlePaymentWithAuth` (ap2-service): the packed
65-byte signature is length-validated (132 characters) before it is
sliced into r/s/v; a bad length throws
`Invalid signature length: expected 132 hex chars, got N`, caught and
returned as a failed settlement result.
-/

/-- The signature codec step of `settlePaymentWithAuth`: length gate
first, slicing only afterwards. -/
def parseSignature (signature : String) : Except String (String × String × Option Nat) :=
  if signature.length ≠ 132 then
    .error ("Invalid signature length: expected 132 hex chars, got " ++
      toString signature.length)
  else
    .ok (Facilitator.charsSlice signature 0 66,
         "0x" ++ Facilitator.charsSlice signature 66 130,
         Facilitator.parseHexNat? (Facilitator.charsSlice signature 130 132))

end Ap2Adapter

lemma sigLenError_ne_mismatch (t : String) :
    ("Invalid signature length: expected 132 hex chars, got " ++ t) ≠
      "Invalid payment signature" := by
  intro h
  have hd := congrArg String.data h
  rw [String.data_append] at hd
  have h9 := congrArg (List.take 9) hd
  rw [List.take_append_eq_append_take] at h9
  have hz : 9 - ("Invalid signature length: expected 132 hex chars, got " : String).data.length
      = 0 := by decide
  rw [hz, List.take_zero, List.append_nil] at h9
  exact absurd h9 (by decide)

/-- C6: a packed signature whose length is not exactly 132 characters is
rejected by both signature codecs before any slicing into r/s/v (the
facilitator codec yields none, mapped by the verify handler to "Invalid
signature format"; the settlement adapter throws the invalid-length
error), and both resulting errors are distinct from the
recovered-address-mismatch error "Invalid payment signature". -/
theorem C6_sig_length_gate (sig : String) (h : sig.length ≠ 132) :
    (∀ r : Facilitator.SDKVerifyRequest, r.permit.sig = sig →
      Facilitator.sdkRequestToInternal r = none) ∧
    (∀ cfg (r : Facilitator.SDKVerifyRequest), Facilitator.sdkVerifyRequestValid r = true →
      lowerString r.recipient = lowerString cfg.facilitatorAddress →
      r.permit.sig = sig →
      Facilitator.facilitatorVerifyLogic cfg r =
        Facilitator.VerifyResponse.clientError "Invalid signature format") ∧
    Ap2Adapter.parseSignature sig =
      Except.error ("Invalid signature length: expected 132 hex chars, got " ++
        toString sig.length) ∧
    ("Invalid signature format" : String) ≠ "Invalid payment signature" ∧
    (∀ t : String, ("Invalid signature length: expected 132 hex chars, got " ++ t) ≠
      "Invalid payment signature") := by
  have hnone : ∀ r : Facilitator.SDKVerifyRequest, r.permit.sig = sig →
      Facilitator.sdkRequestToInternal r = none := by
    intro r hr
    unfold Facilitator.sdkRequestToInternal
    rw [hr, if_pos h]
  refine ⟨hnone, ?_, ?_, by decide, sigLenError_ne_mismatch⟩
  · intro cfg r hvalid hrec hr
    unfold Facilitator.facilitatorVerifyLogic
    rw [hvalid, if_neg (by simp), if_neg (not_not_intro hrec), hnone r hr]
  · unfold Ap2Adapter.parseSignature
    rw [if_pos h]

/-- An SDK request identical to the C1 witness request except for a
truncated six-character packed signature. -/
def c6wReq : Facilitator.SDKVerifyRequest :=
  { c1wReq with permit := { c1wReq.permit with sig := "0xdead" } }

set_option maxRecDepth 16384 in
/-- C6 witness: the length gate applied to the six-character signature
"0xdead" on both codecs. -/
theorem C6_sig_length_gate_witness :
    Facilitator.sdkRequestToInternal c6wReq = none ∧
    Facilitator.facilitatorVerifyLogic c1wCfg c6wReq =
      Facilitator.VerifyResponse.clientError "Invalid signature format" ∧
    Ap2Adapter.parseSignature "0xdead" =
      Except.error ("Invalid signature length: expected 132 hex chars, got " ++
        toString ("0xdead" : String).length) :=
  ⟨(C6_sig_length_gate "0xdead" (by decide)).1 c6wReq rfl,
   (C6_sig_length_gate "0xdead" (by decide)).2.1 c1wCfg c6wReq (by decide) rfl rfl,
   (C6_sig_length_gate "0xdead" (by decide)).2.2.1⟩

namespace Facilitator07

/-!
The Arbitrum-Sepolia facilitator variant: `getVersionedRequirements`
renders the payment requirement as the legacy v1 flat shape or the v2
`accepts` shape, and `getRequirementFields` is the verifier's
field-extraction step over either shape (optional chaining on
`accepts[0]` modelled with `Option`).
-/

/-- One `accepts` entry. -/
structure Accept07 where
  scheme : String
  network : String
  asset : String
  payTo : String
  maxAmountRequired : String
  resource : String
  description : String
  mimeType : String
  maxTimeoutSeconds : Nat
  extraNonce : String
  extraDeadline : Nat
deriving DecidableEq, Repr

/-- The v1 flat requirements shape. -/
structure RequirementsV1 where
  x402Version : Nat
  error : String
  scheme : String
  network : String
  token : String
  amount : String
  recipient : String
  description : String
  maxTimeoutSeconds : Nat
deriving DecidableEq, Repr

/-- The v2 `accepts` requirements shape. -/
structure RequirementsV2 where
  x402Version : Nat
  error : String
  accepts : List Accept07
deriving DecidableEq, Repr

/-- `PaymentRequirements = PaymentRequirementsV1 | PaymentRequirementsV2`. -/
inductive PaymentRequirements07 where
  | v1 (r : RequirementsV1)
  | v2 (r : RequirementsV2)
deriving DecidableEq, Repr

/-- `getVersionedRequirements(version)`: a fresh accept entry (nonce and
deadline passed in for the `randomBytes`/`Date.now` effects); version 1
flattens it with the legacy network name, any other version yields the
v2 shape. -/
def getVersionedRequirements (usdcAddress accountAddress nonce : String) (now : Nat)
    (version : Nat) : PaymentRequirements07 :=
  let accept : Accept07 :=
    { scheme := "exact", network := "eip155:421614", asset := usdcAddress,
      payTo := accountAddress, maxAmountRequired := "1000", resource := "/quote",
      description := "Payment required", mimeType := "application/json",
      maxTimeoutSeconds := 3600, extraNonce := nonce, extraDeadline := now + 3600 }
  if version = 1 then
    .v1 { x402Version := 1, error := "Payment required", scheme := "exact",
          network := AppX402Utils.toLegacyNetworkId "eip155:421614", token := usdcAddress,
          amount := "1000", recipient := accountAddress, description := accept.description,
          maxTimeoutSeconds := 3600 }
  else
    .v2 { x402Version := 2, error := "Payment required", accepts := [accept] }

/-- The tuple extracted by `getRequirementFields` (fields read through
optional chaining are `Option`-valued). -/
structure RequirementFields where
  version : Nat
  network : Option String
  token : Option String
  amount : Option String
  recipient : Option String
deriving DecidableEq, Repr

/-- `getRequirementFields`: version from `x402Version || ('accepts' in pr
? 2 : 1)`; the v2 branch reads `accepts[0]` through optional chaining,
every other case reads the flat legacy fields (absent on a v2 shape,
hence `none`). -/
def getRequirementFields (pr : PaymentRequirements07) : RequirementFields :=
  match pr with
  | .v2 r =>
      let version := if r.x402Version ≠ 0 then r.x402Version else 2
      if version = 2 then
        { version := 2, network := r.accepts.head?.map (fun a => a.network),
          token := r.accepts.head?.map (fun a => a.asset),
          amount := r.accepts.head?.map (fun a => a.maxAmountRequired),
          recipient := r.accepts.head?.map (fun a => a.payTo) }
      else
        { version := 1, network := none, token := none, amount := none, recipient := none }
  | .v1 r =>
      { version := 1, network := some r.network, token := some r.token,
        amount := some r.amount, recipient := some r.recipient }

end Facilitator07

/-- C8 counterexample: for a concrete requirement the v1 rendering
extracts network "arbitrum-sepolia" while the v2 rendering extracts
"eip155:421614" — getRequirementFields performs no network
normalization, so the raw tuples differ in the network component. -/
theorem C8_counterexample :
    (Facilitator07.getRequirementFields
        (Facilitator07.getVersionedRequirements "0xusdc" "0xacct" "0xnonce" 0 1)).network =
      some "arbitrum-sepolia" ∧
    (Facilitator07.getRequirementFields
        (Facilitator07.getVersionedRequirements "0xusdc" "0xacct" "0xnonce" 0 2)).network =
      some "eip155:421614" ∧
    (some "arbitrum-sepolia" : Option String) ≠ some "eip155:421614" :=
  ⟨rfl, rfl, by decide⟩

/-- C8 (amended): for every requirement, the v1 rendering and the v2
accepts[0] rendering extract identical token, amount and recipient
components, and network components that agree after normalizeNetworkId
("arbitrum-sepolia" and "eip155:421614" both normalize to
"eip155:421614"); the raw network strings themselves differ. -/
theorem C8_version_shape_equivalence_amended (usdcAddress accountAddress nonce : String)
    (now : Nat) :
    (Facilitator07.getRequirementFields
        (Facilitator07.getVersionedRequirements usdcAddress accountAddress nonce now 1)).token =
      (Facilitator07.getRequirementFields
        (Facilitator07.getVersionedRequirements usdcAddress accountAddress nonce now 2)).token ∧
    (Facilitator07.getRequirementFields
        (Facilitator07.getVersionedRequirements usdcAddress accountAddress nonce now 1)).amount =
      (Facilitator07.getRequirementFields
        (Facilitator07.getVersionedRequirements usdcAddress accountAddress nonce now 2)).amount ∧
    (Facilitator07.getRequirementFields
        (Facilitator07.getVersionedRequirements usdcAddress accountAddress nonce now 1)).recipient =
      (Facilitator07.getRequirementFields
        (Facilitator07.getVersionedRequirements usdcAddress accountAddress nonce now 2)).recipient ∧
    (Facilitator07.getRequirementFields
        (Facilitator07.getVersionedRequirements usdcAddress accountAddress nonce now 1)).network.map
        (fun x => AppX402Utils.normalizeNetworkId (some x)) =
      (Facilitator07.getRequirementFields
        (Facilitator07.getVersionedRequirements usdcAddress accountAddress nonce now 2)).network.map
        (fun x => AppX402Utils.normalizeNetworkId (some x)) :=
  ⟨rfl, rfl, rfl, rfl⟩

namespace Ap2

/-!
The AP2 metering service's batch settlement (`ap2-service/src/server.ts`,
`POST /settlement/complete`): the only code path that changes a
`BatchInvoice` status.  The in-memory store itself lives in
`usage-meter.ts`.
-/

/-- The `status` enum of `BatchInvoiceSchema`:
`pending | settling | settled | failed`. -/
inductive BatchStatus where
  | pending
  | settling
  | settled
  | failed
deriving DecidableEq, Repr

/-- A `BatchInvoice` per `BatchInvoiceSchema`. -/
structure BatchInvoice where
  batchId : String
  mandateId : String
  userAddress : String
  merchantAddress : String
  eventIds : List String
  eventCount : Nat
  totalMicroUsdc : Nat
  createdAt : Nat
  settledAt : Option Nat
  status : BatchStatus
  transactionHash : Option String
  blockNumber : Option Nat
  errorMessage : Option String
deriving DecidableEq, Repr

/-- An Intent Mandate (only the fields the settlement path touches). -/
structure IntentMandate where
  mandateId : String
  modelName : String
deriving DecidableEq, Repr

/-- A settlement adapter result (`X402SettlementResult`). -/
structure X402SettlementResult where
  success : Bool
  transactionHash : Option String
  blockNumber : Option Nat
  gasUsed : Option Nat
  error : Option String
deriving DecidableEq, Repr

/-- Modelled from the spec: `UsageMeter.updateBatchStatus` (the
usage-meter module is not among the provided sources); per the spec's
BatchInvoice description it overwrites the batch's status and records
the settlement outcome fields that are supplied. -/
def updateBatchStatus (b : BatchInvoice) (status : BatchStatus) (txHash : Option String)
    (blockNumber : Option Nat) (errorMessage : Option String) : BatchInvoice :=
  { b with
    status := status,
    transactionHash := match txHash with | some h => some h | none => b.transactionHash,
    blockNumber := match blockNumber with | some n => some n | none => b.blockNumber,
    errorMessage := match errorMessage with | some e => some e | none => b.errorMessage }

/-- The label interpolated into `Batch is already ${batch.status}`. -/
def statusLabel : BatchStatus → String
  | .pending => "pending"
  | .settling => "settling"
  | .settled => "settled"
  | .failed => "failed"

/-- Forward position of each status in the lifecycle
pending → settling → settled/failed. -/
def statusRank : BatchStatus → Nat
  | .pending => 0
  | .settling => 1
  | .settled => 2
  | .failed => 2

/-- Responses of `POST /settlement/complete`. -/
inductive CompleteResponse where
  | ok (transactionHash : String)
  | notFound (msg : String)
  | badRequest (msg : String)
  | serverError (msg : String)
deriving DecidableEq, Repr

/-- `POST /settlement/complete`: looks up the batch, refuses any batch
whose status is not `pending`, moves it to `settling`, runs
`settlePaymentWithAuth` (its outcome is the `settle` argument — the
facilitator round-trip is external I/O), then marks the batch `settled`
or `failed` according to that outcome.  The updated batch (if any) is
returned alongside the response. -/
def settlementComplete (batch? : Option BatchInvoice) (mandate? : Option IntentMandate)
    (settle : X402SettlementResult) : CompleteResponse × Option BatchInvoice :=
  match batch? with
  | none => (.notFound "Batch not found", none)
  | some batch =>
      if batch.status ≠ .pending then
        (.badRequest ("Batch is already " ++ statusLabel batch.status), some batch)
      else
        match mandate? with
        | none => (.notFound "Mandate not found", some batch)
        | some _ =>
            let b1 := updateBatchStatus batch .settling none none none
            if settle.success = true ∧ settle.transactionHash.isSome = true then
              (.ok (settle.transactionHash.getD ""),
               some (updateBatchStatus b1 .settled settle.transactionHash settle.blockNumber none))
            else
              (.serverError (settle.error.getD "undefined"),
               some (updateBatchStatus b1 .failed none none settle.error))

end Ap2

/-- C9: settlement/complete refuses (with "Batch is already ...") and
leaves unchanged any batch whose status is not pending; the resulting
batch's status never moves backwards in the order pending → settling →
settled/failed; and a pending batch with an existing mandate transitions
exactly according to the settlement attempt's outcome (settled on
success-with-hash, failed otherwise). -/
theorem C9_batch_status_forward (batch? : Option Ap2.BatchInvoice)
    (mandate? : Option Ap2.IntentMandate) (settle : Ap2.X402SettlementResult) :
    (∀ b, batch? = some b → b.status ≠ Ap2.BatchStatus.pending →
      Ap2.settlementComplete batch? mandate? settle =
        (Ap2.CompleteResponse.badRequest ("Batch is already " ++ Ap2.statusLabel b.status),
         some b)) ∧
    (∀ b b2, batch? = some b →
      (Ap2.settlementComplete batch? mandate? settle).2 = some b2 →
      Ap2.statusRank b.status ≤ Ap2.statusRank b2.status) ∧
    (∀ b, batch? = some b → b.status = Ap2.BatchStatus.pending → mandate?.isSome = true →
      ∃ b2, (Ap2.settlementComplete batch? mandate? settle).2 = some b2 ∧
        b2.status = (if settle.success = true ∧ settle.transactionHash.isSome = true then
          Ap2.BatchStatus.settled else Ap2.BatchStatus.failed)) := by
  refine ⟨?_, ?_, ?_⟩
  · intro b hb hne
    subst hb
    simp only [Ap2.settlementComplete]
    rw [if_pos hne]
  · intro b b2 hb h2
    subst hb
    by_cases hne : b.status ≠ Ap2.BatchStatus.pending
    · simp only [Ap2.settlementComplete] at h2
      rw [if_pos hne] at h2
      simp only [Option.some.injEq] at h2
      subst h2
      exact Nat.le_refl _
    · have hp : b.status = Ap2.BatchStatus.pending := not_not.mp hne
      rw [hp]
      exact Nat.zero_le _
  · intro b hb hp hm
    subst hb
    simp only [Ap2.settlementComplete]
    rw [if_neg (not_not_intro hp)]
    cases mandate? with
    | none => cases hm
    | some m =>
        by_cases hs : settle.success = true ∧ settle.transactionHash.isSome = true
        · rw [if_pos hs]
          exact ⟨_, rfl, by rw [if_pos hs]; rfl⟩
        · rw [if_neg hs]
          exact ⟨_, rfl, by rw [if_neg hs]; rfl⟩

/-- C9 witness: a settled batch is refused and unchanged; a pending
batch with a failing settlement attempt moves to failed. -/
theorem C9_batch_status_forward_witness :
    (Ap2.settlementComplete
        (some { batchId := "b1", mandateId := "m1", userAddress := "0xu",
                merchantAddress := "0xm", eventIds := ["e1"], eventCount := 1,
                totalMicroUsdc := 5000, createdAt := 0, settledAt := some 9,
                status := Ap2.BatchStatus.settled, transactionHash := some "0xt",
                blockNumber := some 3, errorMessage := none })
        (some { mandateId := "m1", modelName := "llama" })
        { success := true, transactionHash := some "0xt2", blockNumber := some 4,
          gasUsed := none, error := none } =
      (Ap2.CompleteResponse.badRequest ("Batch is already " ++
        Ap2.statusLabel Ap2.BatchStatus.settled),
       some { batchId := "b1", mandateId := "m1", userAddress := "0xu",
              merchantAddress := "0xm", eventIds := ["e1"], eventCount := 1,
              totalMicroUsdc := 5000, createdAt := 0, settledAt := some 9,
              status := Ap2.BatchStatus.settled, transactionHash := some "0xt",
              blockNumber := some 3, errorMessage := none })) ∧
    (∃ b2, (Ap2.settlementComplete
        (some { batchId := "b2", mandateId := "m1", userAddress := "0xu",
                merchantAddress := "0xm", eventIds := ["e2"], eventCount := 1,
                totalMicroUsdc := 5000, createdAt := 0, settledAt := none,
                status := Ap2.BatchStatus.pending, transactionHash := none,
                blockNumber := none, errorMessage := none })
        (some { mandateId := "m1", modelName := "llama" })
        { success := false, transactionHash := none, blockNumber := none,
          gasUsed := none, error := some "boom" }).2 = some b2 ∧
      b2.status = (if (false = true ∧ (none : Option String).isSome = true) then
        Ap2.BatchStatus.settled else Ap2.BatchStatus.failed)) :=
  ⟨(C9_batch_status_forward _ _ _).1 _ rfl (by decide),
   (C9_batch_status_forward _ _ _).2.2 _ rfl rfl rfl⟩
